import Mathlib

/-!
Verification of the conversation-session registry and request-handling
protocol of the Telegram English-teaching bot (`main.py`).

The embedding is shallow: the relevant Python functions are translated to
pure Lean functions over explicit state.  The `asyncio.Lock` of
`ConversationManager` serializes its critical sections, so each locked
section (`get_chat`, `cleanup`) is modelled as one atomic state transition;
interleavings of concurrent calls are then sequences of whole calls.
External collaborators (the Gemini model client and the Telegram transport)
are parameters: the model client is an oracle function, and outbound
delivery is modelled by effect collection (the list of sent messages).
-/

set_option autoImplicit false

/-- Telegram chat identifiers (opaque stable keys; integers in Telegram). -/
abbrev ChatId := Int

/-- Role tag of one conversation turn. -/
inductive Role where
  | user
  | model
deriving DecidableEq, Repr

/-- One message-exchange unit of a session history. -/
structure Turn where
  role : Role
  text : String
deriving DecidableEq, Repr

/-- A chat session handle as produced by `model.start_chat(history=[])`.
`sid` models Python object identity: each `start_chat` call yields a fresh
object, which we tag with a creation counter so that "same session
instance" is expressible. -/
structure ChatSession where
  sid : Nat
  history : List Turn
deriving DecidableEq, Repr

/-- `model.start_chat(history=h)`: a fresh session object with the given
history (the source always passes `history=[]`). -/
def start_chat (sid : Nat) (h : List Turn) : ChatSession :=
  { sid := sid, history := h }

/-- Lookup in the `conversations` dict, modelled as an association list in
insertion order (`chat_id in self.conversations` / `self.conversations[chat_id]`). -/
def lookupConv : List (ChatId × ChatSession) → ChatId → Option ChatSession
  | [], _ => none
  | (k, v) :: rest, c => if k = c then some v else lookupConv rest c

/-- State of `ConversationManager`: the `conversations` dict plus the
fresh-object counter for sessions created by `model.start_chat`.  The
`asyncio.Lock` field is represented by treating each method body as one
atomic transition (see the file comment). -/
structure ConversationManager where
  conversations : List (ChatId × ChatSession)
  nextSessionId : Nat
deriving DecidableEq, Repr

/-- `ConversationManager.get_chat` (main.py lines 243-248): under the lock,
if `chat_id` has no entry, create `model.start_chat(history=[])` and store
it; return the stored session.  The whole locked body is one atomic step. -/
def ConversationManager.get_chat (m : ConversationManager) (chat_id : ChatId) :
    ChatSession × ConversationManager :=
  match lookupConv m.conversations chat_id with
  | some s => (s, m)
  | none =>
      let s := start_chat m.nextSessionId []
      (s, { conversations := m.conversations ++ [(chat_id, s)],
            nextSessionId := m.nextSessionId + 1 })

/-- `ConversationManager.cleanup` (main.py lines 250-253): under the lock,
`self.conversations.clear()`. -/
def ConversationManager.cleanup (m : ConversationManager) : ConversationManager :=
  { m with conversations := [] }

/-- A normalized inbound message event: `update.effective_chat.id`,
`update.message.text` (absent text is `none`), the sending user's first
name, and whether the update is the `/start` command (the dispatch
criterion of the registered `CommandHandler`/`MessageHandler` pair). -/
structure Update where
  chat_id : ChatId
  text : Option String
  first_name : String
  is_start_command : Bool
deriving DecidableEq, Repr

/-- Python truthiness test `not user_message` on `update.message.text`:
true exactly for an absent (`None`) or empty text.  Whitespace-only text is
truthy and hence NOT caught by this test. -/
def pyFalsy : Option String → Bool
  | none => true
  | some s => s == ""

/-- Log entries emitted by the handlers, kept structurally so that
"logs the error with the chat_id" is expressible. -/
inductive LogEntry where
  | emptyMessage (chatId : ChatId)
  | processing (chatId : ChatId) (preview : String)
  | responseSent (chatId : ChatId)
  | emptyModelResponse (chatId : ChatId)
  | handlerError (chatId : ChatId) (err : String)
  | welcomeSent (chatId : ChatId)
deriving DecidableEq, Repr

/-- Result of running one handler: the outbound messages delivered to the
transport (effect collection; delivery itself is modelled as succeeding),
the log entries, the registry state afterwards, and the exception, if any,
escaping the handler. -/
structure HandlerResult where
  outbound : List (ChatId × String)
  logs : List LogEntry
  manager : ConversationManager
  raised : Option String
deriving DecidableEq, Repr

/-- The fixed apology sent when the model returns empty/blocked text
(main.py lines 302-305). -/
def EMPTY_RESPONSE_MSG : String :=
  "Maaf karna, main samjha nahi. Kya aap phir se try kar sakte hain?\n\nYa phir aap \x27help\x27 likh kar mujhe bata sakte hain ki aapko kis cheez mein difficulty aa rahi hai."

/-- The fixed technical-difficulty string sent when the model call raises
(main.py lines 309-312). -/
def TECH_DIFFICULTY_MSG : String :=
  "Kuch technical problem aa raha hai. Hum team ko inform kar diya hai.\n\nKripya kuch samay baad phir try karein. Dhanyavaad!"

/-- The welcome string of the `/start` handler (main.py lines 266-274),
personalized with the user's first name. -/
def welcome_msg (first_name : String) : String :=
  "Namaste " ++ first_name ++ "!\n\nMain Kritika hoon - aapki personal English teacher.\n\nMujhse aap poochh sakte hain:\n• Grammar concepts\n• Sentence corrections\n• Translations\n• Vocabulary doubts\n• Pronunciation help\n\nKoi bhi English-related problem ho, bas message kijiye!\n\nChaliye shuru karte hain... Aaj aap kya seekhna chahenge?"

/-- The `/start` handler (main.py lines 260-282): ensure a session exists
via `get_chat`, then send the welcome message. -/
def start (m : ConversationManager) (u : Update) : HandlerResult :=
  let m1 := (ConversationManager.get_chat m u.chat_id).2
  { outbound := [(u.chat_id, welcome_msg u.first_name)],
    logs := [.welcomeSent u.chat_id],
    manager := m1,
    raised := none }

/-- `handle_message` (main.py lines 284-312).  The model client is the
oracle `send_message : session → text → Except error reply`, standing for
`await chat.send_message(user_message)`: `.error e` models the call
raising, `.ok r` models a response whose `.text` is `r` (empty `r` is the
falsy/blocked case).  The in-place history growth of the genai session
object is internal to the external model client and is owned by the
oracle, not by this handler, which never writes session histories.  The
`try`/`except` of the source catches the model failure, so no branch sets
`raised`. -/
def handle_message (send_message : ChatSession → String → Except String String)
    (m : ConversationManager) (u : Update) : HandlerResult :=
  let chat_id := u.chat_id
  let user_message := u.text
  if pyFalsy user_message then
    { outbound := [], logs := [.emptyMessage chat_id], manager := m, raised := none }
  else
    let text := user_message.getD ""
    let res := ConversationManager.get_chat m chat_id
    match send_message res.1 text with
    | .ok rtext =>
        if rtext == "" then
          { outbound := [(chat_id, EMPTY_RESPONSE_MSG)],
            logs := [.processing chat_id (text.take 100), .emptyModelResponse chat_id],
            manager := res.2,
            raised := none }
        else
          { outbound := [(chat_id, rtext)],
            logs := [.processing chat_id (text.take 100), .responseSent chat_id],
            manager := res.2,
            raised := none }
    | .error e =>
        { outbound := [(chat_id, TECH_DIFFICULTY_MSG)],
          logs := [.processing chat_id (text.take 100), .handlerError chat_id e],
          manager := res.2,
          raised := none }

/-- `application.process_update` restricted to the two registered handlers:
`CommandHandler` for `/start` and the text `MessageHandler`. -/
def process_update (send_message : ChatSession → String → Except String String)
    (m : ConversationManager) (u : Update) : HandlerResult :=
  if u.is_start_command then start m u else handle_message send_message m u

/-- The JSON body of a `/webhook` response: either the success payload
`{status: ok}`, or — on the `except` path — the whole returned tuple
`({status: error, message: e}, n)` JSON-encoded as a two-element array,
because FastAPI does not give tuple returns the Flask meaning of
(body, status) but serializes the tuple itself as the body. -/
inductive WebhookBody where
  | statusOk
  | tupleError (message : String) (second : Nat)
deriving DecidableEq, Repr

/-- An HTTP response of the FastAPI surface: status code plus JSON body. -/
structure WebhookResponse where
  httpStatus : Nat
  body : WebhookBody
deriving DecidableEq, Repr

/-- `telegram_webhook` (main.py lines 43-53) under FastAPI semantics.  The
request body is an already-attempted parse: `.error e` models
`await request.json()` (or `Update.de_json`) raising on a malformed body,
`.ok u` a well-formed update.  On success it processes the update and
returns the ok payload with the route's default status 200.  On failure
the source writes the Flask idiom `return {status: error, message}, 500`,
but FastAPI does not interpret a tuple return as (body, status): it
JSON-encodes the tuple as a two-element array in the body of a response
with the route's default status 200, so the 500 ends up inside the body
and the HTTP status of the error path is also 200.  The function is
total: the `except` clause catches every processing failure, so the
listener never crashes. -/
def telegram_webhook (send_message : ChatSession → String → Except String String)
    (m : ConversationManager) (body : Except String Update) :
    WebhookResponse × ConversationManager :=
  match body with
  | .error e =>
      ({ httpStatus := 200, body := .tupleError e 500 }, m)
  | .ok u =>
      let r := process_update send_message m u
      ({ httpStatus := 200, body := .statusOk }, r.manager)

/-- The readiness predicates named by the spec (modelled from the spec's
words, for comparison with the source's endpoint): Model Client configured,
Session Registry constructed, and in webhook mode the listener bound. -/
structure ReadyState where
  modelConfigured : Bool
  registryConstructed : Bool
  webhookMode : Bool
  listenerBound : Bool
deriving DecidableEq, Repr

/-- Spec-side definition: all readiness predicates hold. -/
def readinessPredicates (s : ReadyState) : Bool :=
  s.modelConfigured && s.registryConstructed && (!s.webhookMode || s.listenerBound)

/-- `readiness_check` (main.py lines 34-41), translated from the source:
the `try` body contains no checks (only the comment "Add any readiness
checks here") and returns `{ready: True}` with status 200; the body cannot
raise, so the 503 branch is dead.  The system state is therefore ignored.
Result is (HTTP status, value of the `ready` field). -/
def readiness_check (_s : ReadyState) : Nat × Bool :=
  (200, true)

/-- State of `BotApplication` together with effect counters for the
teardown calls, so that "performs no teardown work" is expressible.
`webhookUrl`/`hasApplication`/`hasUpdater` record the truthiness of
`config.WEBHOOK_URL`, `self.application` and `self.application.updater`. -/
structure BotState where
  running : Bool
  shutdownEventSet : Bool
  webhookUrl : Bool
  hasApplication : Bool
  hasUpdater : Bool
  manager : ConversationManager
  cleanupCalls : Nat
  webhookDeletes : Nat
  appStops : Nat
  errorLogs : List String
deriving DecidableEq, Repr

/-- Failure injection for the awaited teardown calls of `shutdown`:
no failure, `self.bot.delete_webhook()` raising, or the
updater/application stop-and-release calls raising. -/
inductive ShutdownFault where
  | noFault
  | webhookFails (e : String)
  | listenerFails (e : String)
deriving DecidableEq, Repr

/-- The state at the first suspend point inside `shutdown`'s `try` block:
`await conversation_manager.cleanup()` has completed, everything after it
has not run, and in particular `self.running` is still `True` (it is
assigned only at the end of the `try` block). -/
def shutdownAfterCleanup (s : BotState) : BotState :=
  { s with manager := s.manager.cleanup, cleanupCalls := s.cleanupCalls + 1 }

/-- The `try`/`except` body of `BotApplication.shutdown` (main.py lines
368-387): cleanup, then `delete_webhook` if a webhook URL is configured,
then stop/release the application, then `self.running = False` and
`self.shutdown_event.set()`.  The `except` branch logs the error and
re-raises it (`raise`), returned as `some e`. -/
def shutdownBody (fault : ShutdownFault) (s : BotState) : BotState × Option String :=
  let s1 := shutdownAfterCleanup s
  let webhookStep : Except String BotState :=
    if s1.webhookUrl then
      match fault with
      | .webhookFails e => .error e
      | _ => .ok { s1 with webhookDeletes := s1.webhookDeletes + 1 }
    else .ok s1
  match webhookStep with
  | .error e => ({ s1 with errorLogs := s1.errorLogs ++ [e] }, some e)
  | .ok s2 =>
      let appStep : Except String BotState :=
        if s2.hasApplication then
          match fault with
          | .listenerFails e => .error e
          | _ => .ok { s2 with appStops := s2.appStops + 1 }
        else .ok s2
      match appStep with
      | .error e => ({ s2 with errorLogs := s2.errorLogs ++ [e] }, some e)
      | .ok s3 => ({ s3 with running := false, shutdownEventSet := true }, none)

/-- `BotApplication.shutdown` (main.py lines 366-387): the whole teardown
is guarded by `if self.running:`; when the guard fails the method returns
immediately.  The second component is the exception propagating out of
`shutdown`, if any. -/
def BotApplication.shutdown (fault : ShutdownFault) (s : BotState) :
    BotState × Option String :=
  if s.running then shutdownBody fault s else (s, none)

/-- Atomic actions of `handle_message`'s control flow, for the locking
discipline: lock acquire/release of the registry lock, the dict access
inside the lock, the awaited model call, outbound sends and log calls. -/
inductive HandlerAction where
  | lockAcquire
  | lockRelease
  | registryAccess
  | modelCall
  | sendOutbound
  | logEvent
deriving DecidableEq, Repr

/-- The action trace of `ConversationManager.get_chat`: `async with
self.lock` acquires, the dict is read/updated, the lock is released on
exit of the `with` block (before the value is returned to the caller). -/
def get_chatTrace : List HandlerAction :=
  [.lockAcquire, .registryAccess, .lockRelease]

/-- The three outcomes of the model call inside `handle_message`. -/
inductive MsgOutcome where
  | success
  | emptyResp
  | modelError
deriving DecidableEq, Repr

/-- The action trace of `handle_message` on a non-empty text (main.py lines
292-312): log "Processing", `get_chat` (its whole locked section), then
`await chat.send_message(...)`, then the branch-dependent reply and log. -/
def handle_messageTrace (o : MsgOutcome) : List HandlerAction :=
  [.logEvent] ++ get_chatTrace ++ [.modelCall] ++
    match o with
    | .success => [.sendOutbound, .logEvent]
    | .emptyResp => [.logEvent, .sendOutbound]
    | .modelError => [.logEvent, .sendOutbound]

/-- Number of registry-lock holds open after executing a list of actions. -/
def lockDepth (tr : List HandlerAction) : Int :=
  tr.foldl
    (fun d a =>
      match a with
      | .lockAcquire => d + 1
      | .lockRelease => d - 1
      | _ => d)
    0

/-- A manager with no sessions, as constructed at startup. -/
def emptyCM : ConversationManager :=
  { conversations := [], nextSessionId := 0 }

/-- A concrete session, used by the witnesses. -/
def sampleSession : ChatSession :=
  { sid := 0, history := [] }

/-- A manager already holding a session for chat 7. -/
def sampleCM : ConversationManager :=
  { conversations := [(7, sampleSession)], nextSessionId := 1 }

/-- A `/start` update for chat 42. -/
def sampleStartUpdate : Update :=
  { chat_id := 42, text := none, first_name := "Asha", is_start_command := true }

/-- A text update for chat 7. -/
def uText7 : Update :=
  { chat_id := 7, text := some "hi", first_name := "Ravi", is_start_command := false }

/-- A model-client oracle that always replies with a fixed text. -/
def genOkHello : ChatSession → String → Except String String :=
  fun _ _ => .ok "hello"

/-- A model-client oracle that always raises (for instance quota exceeded). -/
def genFails : ChatSession → String → Except String String :=
  fun _ _ => .error "quota"

/-- A bot in the Running state, webhook mode, with one live session. -/
def runningBot : BotState :=
  { running := true, shutdownEventSet := false, webhookUrl := true,
    hasApplication := true, hasUpdater := true, manager := sampleCM,
    cleanupCalls := 0, webhookDeletes := 0, appStops := 0, errorLogs := [] }

/-- A readiness state in which every readiness predicate is false. -/
def notReadyState : ReadyState :=
  { modelConfigured := false, registryConstructed := false,
    webhookMode := true, listenerBound := false }

/-- Lookup distributes over append: the left list wins when it has the key. -/
theorem lookupConv_append (l1 l2 : List (ChatId × ChatSession)) (c : ChatId) :
    lookupConv (l1 ++ l2) c =
      match lookupConv l1 c with
      | some s => some s
      | none => lookupConv l2 c := by
  induction l1 with
  | nil => simp [lookupConv]
  | cons p rest ih =>
      obtain ⟨k, v⟩ := p
      by_cases h : k = c <;> simp [lookupConv, h, ih]

/-- When the key is present, `get_chat` returns the stored session and
leaves the manager unchanged. -/
theorem get_chat_of_mem (m : ConversationManager) (c : ChatId) (s : ChatSession)
    (h : lookupConv m.conversations c = some s) :
    ConversationManager.get_chat m c = (s, m) := by
  simp [ConversationManager.get_chat, h]

/-- When the key is absent, `get_chat` creates a fresh empty-history session
and appends it to the dict. -/
theorem get_chat_of_not_mem (m : ConversationManager) (c : ChatId)
    (h : lookupConv m.conversations c = none) :
    ConversationManager.get_chat m c =
      (start_chat m.nextSessionId [],
       { conversations := m.conversations ++ [(c, start_chat m.nextSessionId [])],
         nextSessionId := m.nextSessionId + 1 }) := by
  simp [ConversationManager.get_chat, h]

/-- A fault-free shutdown leaves the `running` flag false, whether or not
the guard fired. -/
theorem shutdown_noFault_not_running (s : BotState) :
    (BotApplication.shutdown ShutdownFault.noFault s).1.running = false := by
  cases hr : s.running with
  | false => simp [BotApplication.shutdown, hr]
  | true =>
      simp only [BotApplication.shutdown, hr, if_true]
      unfold shutdownBody
      by_cases hw : s.webhookUrl <;> by_cases ha : s.hasApplication <;>
        simp [hw, ha, shutdownAfterCleanup]

/-- When the guard `if self.running:` fails, `shutdown` is the identity and
raises nothing. -/
theorem shutdown_of_not_running (fault : ShutdownFault) (s : BotState)
    (h : s.running = false) :
    BotApplication.shutdown fault s = (s, none) := by
  simp [BotApplication.shutdown, h]

/-- After any `get_chat m c`, the resulting registry maps `c` to exactly the
returned session. -/
theorem get_chat_lookup_self (m : ConversationManager) (c : ChatId) :
    lookupConv (ConversationManager.get_chat m c).2.conversations c =
      some (ConversationManager.get_chat m c).1 := by
  cases h : lookupConv m.conversations c with
  | some s => simp [get_chat_of_mem m c s h, h]
  | none =>
      simp [get_chat_of_not_mem m c h, lookupConv_append, h, lookupConv]

/-- C1: the registry holds at most one session per chat_id.  `get_chat`
returns the stored session unchanged when one exists; otherwise it creates,
stores and returns a single new empty-history session; an immediately
repeated call (calls are serialized by the registry lock, so concurrent
calls are sequences of whole calls) returns the same session instance and
changes nothing; and a `/start` event followed by a text-event lookup for
the same chat reuses the very session the `/start` call ensured. -/
theorem get_chat_at_most_one_session (m : ConversationManager) (c : ChatId) :
    (∀ s, lookupConv m.conversations c = some s →
       ConversationManager.get_chat m c = (s, m)) ∧
    (lookupConv m.conversations c = none →
       (ConversationManager.get_chat m c).1.history = [] ∧
       lookupConv (ConversationManager.get_chat m c).2.conversations c =
         some (ConversationManager.get_chat m c).1) ∧
    ConversationManager.get_chat (ConversationManager.get_chat m c).2 c =
      ((ConversationManager.get_chat m c).1, (ConversationManager.get_chat m c).2) ∧
    (∀ u : Update, u.chat_id = c →
       ConversationManager.get_chat (start m u).manager c =
         ((ConversationManager.get_chat m c).1, (start m u).manager)) := by
  refine ⟨fun s h => get_chat_of_mem m c s h,
          fun h => ⟨?_, get_chat_lookup_self m c⟩, ?_, ?_⟩
  · simp [get_chat_of_not_mem m c h, start_chat]
  · exact get_chat_of_mem _ c _ (get_chat_lookup_self m c)
  · intro u hu
    subst hu
    exact get_chat_of_mem _ u.chat_id _ (get_chat_lookup_self m u.chat_id)

/-- Witness for C1 at concrete registries: the present-key case, the
absent-key case, and the `/start`-then-text case. -/
theorem get_chat_at_most_one_session_witness :
    ConversationManager.get_chat sampleCM 7 = (sampleSession, sampleCM) ∧
    (ConversationManager.get_chat emptyCM 42).1.history = [] ∧
    ConversationManager.get_chat (start emptyCM sampleStartUpdate).manager 42 =
      ((ConversationManager.get_chat emptyCM 42).1,
       (start emptyCM sampleStartUpdate).manager) :=
  ⟨(get_chat_at_most_one_session sampleCM 7).1 sampleSession (by decide),
   ((get_chat_at_most_one_session emptyCM 42).2.1 (by decide)).1,
   (get_chat_at_most_one_session emptyCM 42).2.2.2 sampleStartUpdate (by decide)⟩

/-- C2: `cleanup` removes every registry entry, and a subsequent `get_chat`
for any chat (also a previously-seen one) behaves as first contact: it
returns a session with empty history and the registry afterwards holds
exactly that one new entry. -/
theorem cleanup_then_get_chat_first_contact (m : ConversationManager) (c : ChatId) :
    (ConversationManager.cleanup m).conversations = [] ∧
    (ConversationManager.get_chat (ConversationManager.cleanup m) c).1.history = [] ∧
    (ConversationManager.get_chat (ConversationManager.cleanup m) c).2.conversations =
      [(c, (ConversationManager.get_chat (ConversationManager.cleanup m) c).1)] := by
  refine ⟨rfl, ?_, ?_⟩ <;>
    simp [ConversationManager.cleanup, ConversationManager.get_chat, lookupConv, start_chat]

/-- C3 counterexample: a whitespace-only text is truthy in Python, so
`if not user_message` does NOT stop the handler: for chat 5 with text
consisting of three spaces the handler sends an outbound message and
creates a session, contradicting "zero outbound messages and zero new
sessions" for whitespace-only input. -/
theorem handle_message_whitespace_processed :
    (handle_message genOkHello emptyCM
       { chat_id := 5, text := some "   ", first_name := "Mira",
         is_start_command := false }).outbound ≠ [] ∧
    (handle_message genOkHello emptyCM
       { chat_id := 5, text := some "   ", first_name := "Mira",
         is_start_command := false }).manager.conversations ≠ [] := by
  decide

/-- C3 (amended): for an inbound message whose text is absent or empty —
but not merely whitespace-only — `handle_message` stops silently: zero
outbound messages, the registry unchanged (no new session), only a warning
log, and no error. -/
theorem handle_message_falsy_text_noop
    (send_message : ChatSession → String → Except String String)
    (m : ConversationManager) (u : Update) (h : pyFalsy u.text = true) :
    handle_message send_message m u =
      { outbound := [], logs := [.emptyMessage u.chat_id],
        manager := m, raised := none } := by
  simp [handle_message, h]

/-- Witness for the amended C3 at an absent text. -/
theorem handle_message_falsy_text_noop_witness :
    handle_message genOkHello emptyCM
        { chat_id := 9, text := none, first_name := "Mira", is_start_command := false } =
      { outbound := [], logs := [.emptyMessage 9], manager := emptyCM, raised := none } :=
  handle_message_falsy_text_noop genOkHello emptyCM
    { chat_id := 9, text := none, first_name := "Mira", is_start_command := false }
    (by decide)

/-- C4: when the model call raises, `handle_message` delivers exactly the
fixed technical-difficulty string to the originating chat, logs the error
together with the chat_id, and the exception does not propagate past the
handler (the terminal state is Failed-Notified). -/
theorem handle_message_model_error_notifies
    (send_message : ChatSession → String → Except String String)
    (m : ConversationManager) (u : Update) (t e : String)
    (ht : u.text = some t) (hne : pyFalsy u.text = false)
    (herr : send_message (ConversationManager.get_chat m u.chat_id).1 t =
      Except.error e) :
    (handle_message send_message m u).outbound = [(u.chat_id, TECH_DIFFICULTY_MSG)] ∧
    LogEntry.handlerError u.chat_id e ∈ (handle_message send_message m u).logs ∧
    (handle_message send_message m u).raised = none := by
  rw [ht] at hne
  simp [handle_message, ht, hne, herr]

/-- Witness for C4: a quota-style failure for chat 7. -/
theorem handle_message_model_error_notifies_witness :
    (handle_message genFails emptyCM uText7).outbound = [(7, TECH_DIFFICULTY_MSG)] ∧
    LogEntry.handlerError 7 "quota" ∈ (handle_message genFails emptyCM uText7).logs ∧
    (handle_message genFails emptyCM uText7).raised = none :=
  handle_message_model_error_notifies genFails emptyCM uText7 "hi" "quota"
    rfl (by decide) rfl

/-- C5: in the control-flow trace of `handle_message` (for each of the three
model-call outcomes) the single awaited model call occurs at position 4,
where the registry lock is not held (its acquire/release balance over the
preceding prefix is 0), while the session handle was fetched earlier, at
position 2, strictly inside the locked section (balance 1); so no lock is
held across the model-generation suspend point, and a slow model call
cannot block another chat's registry access. -/
theorem model_call_outside_lock (o : MsgOutcome) :
    (handle_messageTrace o).count .modelCall = 1 ∧
    (handle_messageTrace o)[4]? = some .modelCall ∧
    lockDepth ((handle_messageTrace o).take 4) = 0 ∧
    (handle_messageTrace o)[2]? = some .registryAccess ∧
    lockDepth ((handle_messageTrace o).take 2) = 1 := by
  cases o <;> decide

/-- C6 counterexample: at the first suspend point inside an in-progress
shutdown the `running` flag is still true (it is cleared only at the end of
the teardown), so a second shutdown request issued there passes the
`if self.running:` guard and performs the teardown work again — `cleanup`
runs a second time — instead of being a no-op. -/
theorem shutdown_reentrant_while_in_progress :
    (shutdownAfterCleanup runningBot).running = true ∧
    (BotApplication.shutdown ShutdownFault.noFault
        (shutdownAfterCleanup runningBot)).1.cleanupCalls = 2 := by
  decide

/-- C6 (amended): after a fault-free shutdown has completed (which clears
`running`), any further shutdown request is a no-op: it changes no state,
performs no teardown work, and raises nothing.  Idempotence holds only
after completion; a request arriving at a suspend point while a shutdown is
still in progress re-runs teardown, because `running` is cleared only at
the end of the teardown. -/
theorem shutdown_noop_after_completion (s : BotState) :
    BotApplication.shutdown ShutdownFault.noFault
        (BotApplication.shutdown ShutdownFault.noFault s).1 =
      ((BotApplication.shutdown ShutdownFault.noFault s).1, none) :=
  shutdown_of_not_running ShutdownFault.noFault _ (shutdown_noFault_not_running s)

/-- C7 counterexample: with the bot running in webhook mode, a failure of
`delete_webhook` makes `shutdown` re-raise the error; the remaining
teardown steps are skipped (the application is never stopped), `running`
stays true and the shutdown event is never set, so the Stopped state is not
reached — teardown is not best-effort. -/
theorem shutdown_error_aborts_teardown :
    (BotApplication.shutdown (ShutdownFault.webhookFails "net down") runningBot).2 =
      some "net down" ∧
    (BotApplication.shutdown (ShutdownFault.webhookFails "net down") runningBot).1.running =
      true ∧
    (BotApplication.shutdown (ShutdownFault.webhookFails "net down") runningBot).1.appStops =
      0 ∧
    (BotApplication.shutdown (ShutdownFault.webhookFails "net down") runningBot).1.shutdownEventSet =
      false := by
  decide

/-- C7 (amended): every error on the shutdown path (webhook deregistration
failing, or the listener/application release failing) is logged but then
re-raised out of `shutdown`; the teardown aborts at the failing step, so
`running` remains true and the Stopped state is not reached (abort on first
failure, not best-effort completion). -/
theorem shutdown_error_logged_and_reraised (s : BotState) (e : String) :
    (s.running = true → s.webhookUrl = true →
      (BotApplication.shutdown (ShutdownFault.webhookFails e) s).2 = some e ∧
      e ∈ (BotApplication.shutdown (ShutdownFault.webhookFails e) s).1.errorLogs ∧
      (BotApplication.shutdown (ShutdownFault.webhookFails e) s).1.running = true ∧
      (BotApplication.shutdown (ShutdownFault.webhookFails e) s).1.appStops = s.appStops) ∧
    (s.running = true → s.hasApplication = true →
      (BotApplication.shutdown (ShutdownFault.listenerFails e) s).2 = some e ∧
      e ∈ (BotApplication.shutdown (ShutdownFault.listenerFails e) s).1.errorLogs ∧
      (BotApplication.shutdown (ShutdownFault.listenerFails e) s).1.running = true) := by
  constructor
  · intro hr hw
    simp [BotApplication.shutdown, hr, shutdownBody, shutdownAfterCleanup, hw]
  · intro hr ha
    by_cases hw : s.webhookUrl <;>
      simp [BotApplication.shutdown, hr, shutdownBody, shutdownAfterCleanup, hw, ha]

/-- Witness for the amended C7 at the running webhook-mode bot. -/
theorem shutdown_error_logged_and_reraised_witness :
    (BotApplication.shutdown (ShutdownFault.webhookFails "boom") runningBot).2 =
      some "boom" ∧
    (BotApplication.shutdown (ShutdownFault.listenerFails "busy") runningBot).2 =
      some "busy" ∧
    (BotApplication.shutdown (ShutdownFault.listenerFails "busy") runningBot).1.running =
      true :=
  ⟨((shutdown_error_logged_and_reraised runningBot "boom").1 rfl rfl).1,
   ((shutdown_error_logged_and_reraised runningBot "busy").2 rfl rfl).1,
   ((shutdown_error_logged_and_reraised runningBot "busy").2 rfl rfl).2.2⟩

/-- C8 (code bug): evaluated at a malformed webhook body, the endpoint
responds with HTTP status 200 — a 2xx status — carrying the source's
`(error payload, 500)` tuple JSON-encoded as the body: the source's
trailing `, 500` shows the intended non-2xx status, but FastAPI ignores
the Flask tuple idiom, so the intended 500 never reaches the status line.
The claim's remaining parts do hold at this input: the registry is left
exactly as it was, the listener does not crash, and a well-formed update
still yields the ok payload with HTTP 200. -/
theorem telegram_webhook_malformed_returns_200 :
    (telegram_webhook genOkHello sampleCM (Except.error "Expecting value")).1.httpStatus =
      200 ∧
    (telegram_webhook genOkHello sampleCM (Except.error "Expecting value")).1.body =
      WebhookBody.tupleError "Expecting value" 500 ∧
    (telegram_webhook genOkHello sampleCM (Except.error "Expecting value")).2 =
      sampleCM ∧
    (telegram_webhook genOkHello sampleCM (Except.ok uText7)).1 =
      { httpStatus := 200, body := WebhookBody.statusOk } :=
  ⟨rfl, rfl, rfl, rfl⟩

/-- C9 counterexample: in a state where every readiness predicate is false
(model unconfigured, registry not constructed, webhook mode with listener
unbound), `/ready` still answers HTTP 200 with `{ready: true}` — so the
endpoint does not return 200 exactly when the predicates hold, and never
returns 503. -/
theorem readiness_check_ignores_predicates :
    readinessPredicates notReadyState = false ∧
    readiness_check notReadyState = (200, true) := by
  decide

/-- C9 (amended): `readiness_check` unconditionally returns HTTP 200 with
`{ready: true}`, whatever the system state: its `try` body contains no
readiness check and cannot raise, so the 503 branch is unreachable. -/
theorem readiness_check_always_ready (s : ReadyState) :
    readiness_check s = (200, true) := rfl

/-- C10: `get_chat` is insert-if-absent only: the entry of every other
chat_id is exactly what it was before, a present key leaves the whole
registry untouched (the stored session object is unchanged), no existing
entry is ever removed, and the entry-removing operation is `cleanup`, which
drops them all. -/
theorem get_chat_insert_if_absent_only (m : ConversationManager) (c : ChatId) :
    (∀ c2, c2 ≠ c →
       lookupConv (ConversationManager.get_chat m c).2.conversations c2 =
         lookupConv m.conversations c2) ∧
    (∀ s, lookupConv m.conversations c = some s →
       (ConversationManager.get_chat m c).2 = m) ∧
    (∀ p, p ∈ m.conversations →
       p ∈ (ConversationManager.get_chat m c).2.conversations) ∧
    (ConversationManager.cleanup m).conversations = [] := by
  refine ⟨?_, fun s h => by simp [get_chat_of_mem m c s h], ?_, rfl⟩
  · intro c2 hne
    cases h : lookupConv m.conversations c with
    | some s => simp [get_chat_of_mem m c s h]
    | none =>
        rw [get_chat_of_not_mem m c h]
        simp only [lookupConv_append]
        cases h2 : lookupConv m.conversations c2 with
        | some s2 => rfl
        | none => simp [lookupConv, Ne.symm hne]
  · intro p hp
    cases h : lookupConv m.conversations c with
    | some s => simp [get_chat_of_mem m c s h]; exact hp
    | none =>
        rw [get_chat_of_not_mem m c h]
        exact List.mem_append_left _ hp

/-- Witness for C10: the frame on another key, the present-key no-op, and
preservation of an existing entry, at concrete registries. -/
theorem get_chat_insert_if_absent_only_witness :
    lookupConv (ConversationManager.get_chat sampleCM 1).2.conversations 7 =
      lookupConv sampleCM.conversations 7 ∧
    (ConversationManager.get_chat sampleCM 7).2 = sampleCM ∧
    (7, sampleSession) ∈ (ConversationManager.get_chat sampleCM 1).2.conversations :=
  ⟨(get_chat_insert_if_absent_only sampleCM 1).1 7 (by decide),
   (get_chat_insert_if_absent_only sampleCM 7).2.1 sampleSession (by decide),
   (get_chat_insert_if_absent_only sampleCM 1).2.2.1 (7, sampleSession) (by decide)⟩
